import Mathlib

/-!
Verification of the artifact resolver in src/jenkinsapi/artifact.py.

The module under study is a single class, Artifact, with four operations:
save, _do_download, _verify_download, _md5sum, plus the wrapper savetodir.
The external collaborators it calls (the Fingerprint oracle, the build
object's authenticated opener, urllib's urlretrieve, hashlib's digest of an
accumulated byte string, the logger) live outside the repository, so they
are modelled as an environment record of functions; everything that is code
of artifact.py itself (the branching of save, the exception handling, the
assert statements of savetodir, the chunked read loop of _md5sum) is
embedded structurally, line by line.

States and values: file contents are byte lists (List Nat); the filesystem
is an association list from path strings to contents plus a list of
directory paths; Python exceptions that the embedded code can raise or
catch are the constructors of PyExn.

The pivotal fact of this program is that the read loop of _md5sum never
terminates in Python 3: the file is open in binary mode, so f.read yields
bytes (the empty bytes at end of file), while the sentinel given to iter is
the str value '', and a bytes value never compares equal to a str value.
The loop is embedded faithfully as md5Loop (explicit fuel, cross-type
sentinel comparison via PyVal and pyEq), and md5Loop_none proves it never
exits.  Because of this, every computation in the module has three possible
outcomes, captured by the Outcome type: a returned value, a raised
exception, or divergence (hang).  A call into _md5sum on a readable file
hangs; consequently _verify_download hangs before the build-context
dereference and before the oracle query (both embedded anyway, as the dead
code they are, to mirror the source text).

A run of save is summarised by a SaveResult: its outcome (returned path,
propagated exception, or hang), the filesystem after the effects performed
before the run ended or hung, the ordered list of transport fetches
likewise performed, and whether the advisory filename warning was logged.
-/

namespace JenkinsApiArtifact

/-- Python exceptions that the code of artifact.py raises, catches, or lets
propagate.  artifactBroken is jenkinsapi.exceptions.ArtifactBroken; the
others are builtins. -/
inductive PyExn where
  | artifactBroken
  | attributeError
  | ioError
  | assertionError
  | urlError
deriving Repr, DecidableEq

/-- Outcome of running a piece of Python code: it returns a value, raises
an exception, or never finishes. -/
inductive Outcome (α : Type) where
  | ok (a : α)
  | exn (e : PyExn)
  | hang
deriving Repr, DecidableEq

/-- Whether an outcome is a normal return. -/
def Outcome.isOk {α : Type} : Outcome α → Bool
  | Outcome.ok _ => true
  | _ => false

/-- The slice of the build context that _verify_download reads:
self.build.job.name and self.build.buildno.  (self.build.job.jenkins and
its baseurl only parameterise the external Fingerprint construction and are
absorbed into the environment's oracle.) -/
structure Build where
  jobName : String
  buildno : Nat
deriving Repr, DecidableEq

/-- Artifact.__init__(filename, url, build=None). -/
structure Artifact where
  filename : String
  url : String
  build : Option Build
deriving Repr, DecidableEq

/-- Local filesystem state: files as an association list from path to byte
content (later entries shadowed by earlier ones), plus the set of directory
paths. -/
structure Fs where
  files : List (String × List Nat)
  dirs : List String
deriving Repr, DecidableEq

/-- Content of the file at path p, if one exists (open(p, 'rb').read()). -/
def fsLookup (fs : Fs) (p : String) : Option (List Nat) :=
  match fs.files.find? (fun e => e.1 == p) with
  | some e => some e.2
  | none => none

/-- Writing bs to path p in 'wb' mode: creates or overwrites. -/
def fsWrite (fs : Fs) (p : String) (bs : List Nat) : Fs :=
  ⟨(p, bs) :: fs.files, fs.dirs⟩

/-- os.path.exists p. -/
def fsExists (fs : Fs) (p : String) : Bool :=
  (fsLookup fs p).isSome || fs.dirs.contains p

/-- os.path.isdir p. -/
def fsIsDir (fs : Fs) (p : String) : Bool :=
  fs.dirs.contains p

/-- Python str.endswith as a relation on the character lists: the second
string is a suffix of the first.  (Stated over List Char so that it
computes by structural recursion.) -/
def pyEndsWith (s suffix : String) : Bool :=
  List.isSuffixOf suffix.data s.data

/-- Python str.startswith, likewise. -/
def pyStartsWith (s pre : String) : Bool :=
  List.isPrefixOf pre.data s.data

/-- os.path.basename p: the part after the last slash. -/
def basename (p : String) : String :=
  ⟨(p.data.reverse.takeWhile (fun c => c ≠ '/')).reverse⟩

/-- os.path.join for POSIX paths, as used by savetodir. -/
def osPathJoin (a b : String) : String :=
  if pyStartsWith b "/" then b
  else if pyEndsWith a "/" || a = "" then a ++ b
  else a ++ "/" ++ b

/-- The external collaborators of artifact.py.
digest bs    : hexdigest of hashlib.md5 fed the byte string bs;
oracle       : Fingerprint(baseurl, md5, jenkins).validate_for_build
               (md5hex, basename, jobname, buildno) — returns the boolean
               answer or raises;
fetchAuth u  : the authenticated read self.build.get_jenkins_obj()
               .get_opener()(u).read() — bytes or a raised transport error;
fetch u      : the plain urllib.request.urlretrieve body for url u. -/
structure Env where
  digest : List Nat → String
  oracle : String → String → String → Nat → Except PyExn Bool
  fetchAuth : String → Except PyExn (List Nat)
  fetch : String → Except PyExn (List Nat)

/-- One transport access, tagged authenticated (build opener) or plain
(urlretrieve). -/
inductive FetchEv where
  | auth (url : String)
  | plain (url : String)
deriving Repr, DecidableEq

instance {ε α : Type} [DecidableEq ε] [DecidableEq α] : DecidableEq (Except ε α) :=
  fun x y =>
    match x, y with
    | Except.error a, Except.error b =>
      if h : a = b then isTrue (by rw [h])
      else isFalse (by intro hc; cases hc; exact h rfl)
    | Except.ok a, Except.ok b =>
      if h : a = b then isTrue (by rw [h])
      else isFalse (by intro hc; cases hc; exact h rfl)
    | Except.error _, Except.ok _ => isFalse (by intro hc; cases hc)
    | Except.ok _, Except.error _ => isFalse (by intro hc; cases hc)

/-- Observable summary of a call to save (or savetodir): its outcome (the
returned path, the propagated exception, or a hang), the filesystem after
the writes performed before the call ended or hung, the transport fetches
likewise performed in order, and whether the filename-mismatch warning was
logged. -/
structure SaveResult where
  ret : Outcome String
  fs : Fs
  fetched : List FetchEv
  warned : Bool
deriving Repr, DecidableEq

/-! The chunked read loop of Artifact._md5sum, embedded faithfully.

  md5 = hashlib.md5()
  with open(fspath, 'rb') as f:
      for chunk in iter(lambda: f.read(chunksize), ''):
          md5.update(chunk)
  return md5.hexdigest()

The file is open in binary mode, so f.read(chunksize) yields a bytes value
(the next chunk of the remaining content; the empty bytes at end of file),
while the sentinel of iter is the str value ''.  iter stops exactly when
the produced value compares equal (Python ==) to the sentinel.  PyVal and
pyEq model that cross-type comparison: values of distinct Python types are
never equal.  The loop is given explicit fuel; some acc means the loop left
normally with acc the byte string accumulated into the md5 object. -/

/-- A Python value that the loop condition can compare: a bytes object or a
str object. -/
inductive PyVal where
  | vbytes (bs : List Nat)
  | vstr (s : String)
deriving Repr, DecidableEq

/-- Python == on those values: values of different types are not equal. -/
def pyEq : PyVal → PyVal → Bool
  | PyVal.vbytes a, PyVal.vbytes b => a == b
  | PyVal.vstr a, PyVal.vstr b => a == b
  | _, _ => false

/-- One iteration of iter(lambda: f.read(chunksize), ''): rem is the part
of the file not yet read, acc the bytes accumulated into the md5 object.
Returns some acc when the loop exits normally within the given fuel. -/
def md5Loop (chunksize : Nat) : List Nat → List Nat → Nat → Option (List Nat)
  | _, _, 0 => none
  | rem, acc, fuel + 1 =>
    let chunk := rem.take chunksize
    if pyEq (PyVal.vbytes chunk) (PyVal.vstr "") then some acc
    else md5Loop chunksize (rem.drop chunksize) (acc ++ chunk) fuel

/-- Artifact._md5sum on a file of the given content, with its default
chunksize 2^20, run with the given fuel: the accumulated byte string when
the read loop terminates. -/
def md5sumFuel (content : List Nat) (fuel : Nat) : Option (List Nat) :=
  md5Loop (2 ^ 20) content [] fuel

/-- The same loop with the bytes sentinel the code would need: stops when
f.read returns the empty bytes object. -/
def md5LoopFixed (chunksize : Nat) : List Nat → List Nat → Nat → Option (List Nat)
  | _, _, 0 => none
  | rem, acc, fuel + 1 =>
    let chunk := rem.take chunksize
    if pyEq (PyVal.vbytes chunk) (PyVal.vbytes []) then some acc
    else md5LoopFixed chunksize (rem.drop chunksize) (acc ++ chunk) fuel

/-- Artifact._md5sum(fspath) as the rest of the resolver observes it.  The
open(fspath, 'rb') raises (IOError family, re-raised by the bare except)
when no readable file is at fspath.  Otherwise the read loop never exits —
md5Loop refuses every amount of fuel, see md5Loop_none below — so the call
never produces a digest: it hangs.  A normal return is impossible. -/
def md5sumOutcome (fs : Fs) (fspath : String) : Outcome (List Nat) :=
  match fsLookup fs fspath with
  | none => Outcome.exn PyExn.ioError
  | some _ => Outcome.hang

/-- Artifact._verify_download(fspath), lines 80-86:
  local_md5 = self._md5sum(fspath)
  fp = Fingerprint(self.build.job.jenkins.baseurl, local_md5,
                   self.build.job.jenkins)
  return fp.validate_for_build(os.path.basename(fspath),
                               self.build.job.name, self.build.buildno)
The first line already decides every run: _md5sum raises when fspath cannot
be opened and otherwise hangs (md5sumOutcome), so the Fingerprint
construction — including the self.build.job dereference that would raise
AttributeError when build is None — and the oracle query are dead code.
They are embedded after the _md5sum outcome anyway, to mirror the source
text. -/
def verifyDownload (env : Env) (art : Artifact) (fs : Fs) (fspath : String) :
    Outcome Bool :=
  match md5sumOutcome fs fspath with
  | Outcome.exn e => Outcome.exn e
  | Outcome.hang => Outcome.hang
  | Outcome.ok md5bytes =>
    match art.build with
    | none => Outcome.exn PyExn.attributeError
    | some b =>
      match env.oracle (env.digest md5bytes) (basename fspath) b.jobName b.buildno with
      | Except.ok v => Outcome.ok v
      | Except.error e => Outcome.exn e

/-- Artifact._do_download(fspath): authenticated opener write when
self.build is set, urllib.request.urlretrieve(self.url, filename=fspath)
otherwise; urlretrieve returns the filename it was given.  Yields the
returned path or the propagated transport error, the filesystem after any
write, and the transport access performed.  (The transport either returns
or raises; it is not where the program diverges.) -/
def doDownload (env : Env) (art : Artifact) (fs : Fs) (fspath : String) :
    Except PyExn String × Fs × List FetchEv :=
  match art.build with
  | some _ =>
    match env.fetchAuth art.url with
    | Except.error e => (Except.error e, fs, [FetchEv.auth art.url])
    | Except.ok bytes => (Except.ok fspath, fsWrite fs fspath bytes, [FetchEv.auth art.url])
  | none =>
    match env.fetch art.url with
    | Except.error e => (Except.error e, fs, [FetchEv.plain art.url])
    | Except.ok bytes => (Except.ok fspath, fsWrite fs fspath bytes, [FetchEv.plain art.url])

/-- The tail of Artifact.save that every non-short-circuit branch falls
through to:
  filename = self._do_download(fspath)
  try:
      self._verify_download(filename)
  except ArtifactBroken:
      log.warning(...)
  return filename
Only ArtifactBroken is caught after the download; any other exception from
the verification (and any transport error from the download itself)
propagates, and if the verification hangs the whole call hangs — with the
download's write and fetch already performed. -/
def saveDownloadPhase (env : Env) (art : Artifact) (fs : Fs) (fspath : String)
    (warned : Bool) : SaveResult :=
  match doDownload env art fs fspath with
  | (Except.error e, fs1, fet) => ⟨Outcome.exn e, fs1, fet, warned⟩
  | (Except.ok filename, fs1, fet) =>
    match verifyDownload env art fs1 filename with
    | Outcome.ok _ => ⟨Outcome.ok filename, fs1, fet, warned⟩
    | Outcome.exn PyExn.artifactBroken => ⟨Outcome.ok filename, fs1, fet, warned⟩
    | Outcome.exn e => ⟨Outcome.exn e, fs1, fet, warned⟩
    | Outcome.hang => ⟨Outcome.hang, fs1, fet, warned⟩

/-- Artifact.save(fspath), lines 35-63 of artifact.py:
  if not fspath.endswith(self.filename): log.warn(...)   -- warned flag
  if os.path.exists(fspath):
      if self.build:
          try:
              if self._verify_download(fspath):
                  return fspath
          except ArtifactBroken:
              log.info(...)
      else:
          log.info(...)
  else:
      log.info(...)
  -- fall through: saveDownloadPhase
In the pre-existing-file branch only ArtifactBroken is caught; a
verification result of False falls out of the inner if and reaches the
download; any other exception propagates to the caller; a hanging
verification hangs the call with nothing fetched and nothing written.  The
body is split in two: the warn check on the first two lines computes
warned, and saveTail is everything after it (which never reads
self.filename again). -/
def saveTail (env : Env) (art : Artifact) (fs : Fs) (fspath : String)
    (warned : Bool) : SaveResult :=
  if fsExists fs fspath then
    match art.build with
    | some _ =>
      match verifyDownload env art fs fspath with
      | Outcome.ok true => ⟨Outcome.ok fspath, fs, [], warned⟩
      | Outcome.ok false => saveDownloadPhase env art fs fspath warned
      | Outcome.exn PyExn.artifactBroken => saveDownloadPhase env art fs fspath warned
      | Outcome.exn e => ⟨Outcome.exn e, fs, [], warned⟩
      | Outcome.hang => ⟨Outcome.hang, fs, [], warned⟩
    | none => saveDownloadPhase env art fs fspath warned
  else saveDownloadPhase env art fs fspath warned

/-- Artifact.save(fspath): the warn check followed by saveTail. -/
def save (env : Env) (art : Artifact) (fs : Fs) (fspath : String) : SaveResult :=
  saveTail env art fs fspath (!(pyEndsWith fspath art.filename))

/-- Artifact.savetodir(dirpath):
  assert os.path.exists(dirpath)
  assert os.path.isdir(dirpath)
  outputfilepath = os.path.join(dirpath, self.filename)
  return self.save(outputfilepath)
A failed assert raises AssertionError before the destination path is
computed and before save (hence any transport access) runs. -/
def savetodir (env : Env) (art : Artifact) (fs : Fs) (dirpath : String) : SaveResult :=
  if !(fsExists fs dirpath) then ⟨Outcome.exn PyExn.assertionError, fs, [], false⟩
  else if !(fsIsDir fs dirpath) then ⟨Outcome.exn PyExn.assertionError, fs, [], false⟩
  else save env art fs (osPathJoin dirpath art.filename)

/-! Concrete instantiations used as witnesses: a fixed artifact with and
without a build context, small filesystems, and environments whose oracle
would answer true, would answer false, or would raise ArtifactBroken —
were it ever consulted. -/

def artB : Artifact :=
  ⟨"report.xml", "http://jenkins.example/job/build-A/42/artifact/report.xml",
   some ⟨"build-A", 42⟩⟩

def artN : Artifact :=
  ⟨"report.xml", "http://jenkins.example/job/build-A/42/artifact/report.xml", none⟩

def fsR : Fs := ⟨[("/tmp/out/report.xml", [1, 2])], ["/tmp/out"]⟩

def fsE : Fs := ⟨[], []⟩

def envOk : Env :=
  ⟨fun _ => "d41d8cd98f00b204e9800998ecf8427e",
   fun _ _ _ _ => Except.ok true,
   fun _ => Except.ok [7, 7],
   fun _ => Except.ok [7, 7]⟩

def envFalse : Env :=
  ⟨fun _ => "d41d8cd98f00b204e9800998ecf8427e",
   fun _ _ _ _ => Except.ok false,
   fun _ => Except.ok [7, 7],
   fun _ => Except.ok [7, 7]⟩

def envBroken : Env :=
  ⟨fun _ => "d41d8cd98f00b204e9800998ecf8427e",
   fun _ _ _ _ => Except.error PyExn.artifactBroken,
   fun _ => Except.ok [7, 7],
   fun _ => Except.ok [7, 7]⟩

/-! Theorems.  First the loop-level facts about _md5sum, then helper lemmas
about the filesystem and the phases of save, then the claims. -/

theorem md5Loop_none (chunksize : Nat) (rem acc : List Nat) (fuel : Nat) :
    md5Loop chunksize rem acc fuel = none := by
  induction fuel generalizing rem acc with
  | zero => rfl
  | succ n ih => simpa [md5Loop, pyEq] using ih (rem.drop chunksize) (acc ++ rem.take chunksize)

theorem md5LoopFixed_some (chunksize : Nat) (hc : 0 < chunksize) :
    ∀ (fuel : Nat) (rem acc : List Nat), rem.length < fuel →
      md5LoopFixed chunksize rem acc fuel = some (acc ++ rem) := by
  intro fuel
  induction fuel with
  | zero => intro rem acc h; omega
  | succ n ih =>
    intro rem acc h
    cases rem with
    | nil => simp [md5LoopFixed, pyEq]
    | cons x xs =>
      have hne : ((x :: xs).take chunksize == ([] : List Nat)) = false := by
        cases chunksize with
        | zero => omega
        | succ m => simp [List.take]
      have hlen : ((x :: xs).drop chunksize).length < n := by
        have := List.length_drop chunksize (x :: xs)
        simp at h ⊢
        omega
      calc md5LoopFixed chunksize (x :: xs) acc (n + 1)
          = md5LoopFixed chunksize ((x :: xs).drop chunksize)
              (acc ++ (x :: xs).take chunksize) n := by
            simp [md5LoopFixed, pyEq, hne]
        _ = some ((acc ++ (x :: xs).take chunksize) ++ (x :: xs).drop chunksize) :=
            ih _ _ hlen
        _ = some (acc ++ (x :: xs)) := by
            rw [List.append_assoc, List.take_append_drop]

/-- The resolver-level summary of _md5sum agrees with the loop-level
embedding: on a readable file the loop refuses every amount of fuel, and
md5sumOutcome records exactly that as a hang. -/
theorem md5sumOutcome_spec (fs : Fs) (p : String) (c : List Nat)
    (h : fsLookup fs p = some c) :
    md5sumOutcome fs p = Outcome.hang ∧
    ∀ fuel, md5Loop (2 ^ 20) c [] fuel = none :=
  ⟨by simp [md5sumOutcome, h], fun fuel => md5Loop_none (2 ^ 20) c [] fuel⟩

/-! Helper lemmas about the filesystem model. -/

theorem fsLookup_fsWrite_self (fs : Fs) (p : String) (bs : List Nat) :
    fsLookup (fsWrite fs p bs) p = some bs := by
  simp [fsLookup, fsWrite, List.find?]

theorem fsExists_of_lookup {fs : Fs} {p : String} {bs : List Nat}
    (h : fsLookup fs p = some bs) : fsExists fs p = true := by
  simp [fsExists, h]

/-! Helper lemmas about verification outcomes and the phases of save. -/

theorem verifyDownload_hang (env : Env) (art : Artifact) (fs : Fs)
    (fspath : String) (c : List Nat) (h : fsLookup fs fspath = some c) :
    verifyDownload env art fs fspath = Outcome.hang := by
  simp [verifyDownload, md5sumOutcome, h]

theorem verifyDownload_cases (env : Env) (art : Artifact) (fs : Fs)
    (fspath : String) :
    verifyDownload env art fs fspath = Outcome.hang ∨
    verifyDownload env art fs fspath = Outcome.exn PyExn.ioError := by
  rcases h : fsLookup fs fspath with _ | c
  · right; simp [verifyDownload, md5sumOutcome, h]
  · left; exact verifyDownload_hang env art fs fspath c h

theorem doDownload_ok {env : Env} {art : Artifact} {fs : Fs} {fspath fn : String}
    {fs1 : Fs} {fet : List FetchEv}
    (h : doDownload env art fs fspath = (Except.ok fn, fs1, fet)) :
    fn = fspath ∧ (fsLookup fs1 fspath).isSome = true := by
  unfold doDownload at h
  cases hb : art.build with
  | some b =>
    rw [hb] at h
    cases hfa : env.fetchAuth art.url with
    | error e => rw [hfa] at h; simp at h
    | ok bs =>
      rw [hfa] at h
      simp only [Prod.mk.injEq] at h
      obtain ⟨h1, h2, _⟩ := h
      injection h1 with h1
      subst h1
      exact ⟨rfl, by rw [← h2, fsLookup_fsWrite_self]; rfl⟩
  | none =>
    rw [hb] at h
    cases hfa : env.fetch art.url with
    | error e => rw [hfa] at h; simp at h
    | ok bs =>
      rw [hfa] at h
      simp only [Prod.mk.injEq] at h
      obtain ⟨h1, h2, _⟩ := h
      injection h1 with h1
      subst h1
      exact ⟨rfl, by rw [← h2, fsLookup_fsWrite_self]; rfl⟩

/-- After a download that returned, the written file is readable, so the
post-download verification hangs and the fall-through phase never produces
a normal return. -/
theorem saveDownloadPhase_never_ok (env : Env) (art : Artifact) (fs : Fs)
    (fspath : String) (w : Bool) :
    ((saveDownloadPhase env art fs fspath w).ret).isOk = false := by
  rcases hdd : doDownload env art fs fspath with ⟨r, fs1, fet⟩
  cases r with
  | error e => simp [saveDownloadPhase, hdd, Outcome.isOk]
  | ok fn =>
    obtain ⟨hfn, hsome⟩ := doDownload_ok hdd
    subst hfn
    rcases hl : fsLookup fs1 fn with _ | c
    · rw [hl] at hsome; simp at hsome
    · have hv := verifyDownload_hang env art fs1 fn c hl
      simp [saveDownloadPhase, hdd, hv, Outcome.isOk]

/-! Lemmas separating the advisory warn flag from the rest of a run. -/

theorem saveDownloadPhase_warn_irrel (env : Env) (art : Artifact) (fs : Fs)
    (fspath : String) (w1 w2 : Bool) :
    (saveDownloadPhase env art fs fspath w1).ret
        = (saveDownloadPhase env art fs fspath w2).ret ∧
    (saveDownloadPhase env art fs fspath w1).fs
        = (saveDownloadPhase env art fs fspath w2).fs ∧
    (saveDownloadPhase env art fs fspath w1).fetched
        = (saveDownloadPhase env art fs fspath w2).fetched := by
  rcases hdd : doDownload env art fs fspath with ⟨r, fs1, fet⟩
  cases r with
  | error e => simp [saveDownloadPhase, hdd]
  | ok fn =>
    cases hv2 : verifyDownload env art fs1 fn with
    | ok v => simp [saveDownloadPhase, hdd, hv2]
    | exn e => cases e <;> simp [saveDownloadPhase, hdd, hv2]
    | hang => simp [saveDownloadPhase, hdd, hv2]

theorem saveDownloadPhase_warned (env : Env) (art : Artifact) (fs : Fs)
    (fspath : String) (w : Bool) :
    (saveDownloadPhase env art fs fspath w).warned = w := by
  rcases hdd : doDownload env art fs fspath with ⟨r, fs1, fet⟩
  cases r with
  | error e => simp [saveDownloadPhase, hdd]
  | ok fn =>
    cases hv2 : verifyDownload env art fs1 fn with
    | ok v => simp [saveDownloadPhase, hdd, hv2]
    | exn e => cases e <;> simp [saveDownloadPhase, hdd, hv2]
    | hang => simp [saveDownloadPhase, hdd, hv2]

theorem saveTail_warn_irrel (env : Env) (art : Artifact) (fs : Fs)
    (fspath : String) (w1 w2 : Bool) :
    (saveTail env art fs fspath w1).ret = (saveTail env art fs fspath w2).ret ∧
    (saveTail env art fs fspath w1).fs = (saveTail env art fs fspath w2).fs ∧
    (saveTail env art fs fspath w1).fetched
        = (saveTail env art fs fspath w2).fetched := by
  cases he : fsExists fs fspath with
  | false => simpa [saveTail, he] using saveDownloadPhase_warn_irrel env art fs fspath w1 w2
  | true =>
    cases hb : art.build with
    | none => simpa [saveTail, he, hb] using saveDownloadPhase_warn_irrel env art fs fspath w1 w2
    | some b =>
      cases hv : verifyDownload env art fs fspath with
      | ok v =>
        cases v with
        | true => simp [saveTail, he, hb, hv]
        | false =>
          simpa [saveTail, he, hb, hv] using saveDownloadPhase_warn_irrel env art fs fspath w1 w2
      | exn e =>
        cases e with
        | artifactBroken =>
          simpa [saveTail, he, hb, hv] using saveDownloadPhase_warn_irrel env art fs fspath w1 w2
        | attributeError => simp [saveTail, he, hb, hv]
        | ioError => simp [saveTail, he, hb, hv]
        | assertionError => simp [saveTail, he, hb, hv]
        | urlError => simp [saveTail, he, hb, hv]
      | hang => simp [saveTail, he, hb, hv]

theorem saveTail_warned (env : Env) (art : Artifact) (fs : Fs)
    (fspath : String) (w : Bool) :
    (saveTail env art fs fspath w).warned = w := by
  cases he : fsExists fs fspath with
  | false => simpa [saveTail, he] using saveDownloadPhase_warned env art fs fspath w
  | true =>
    cases hb : art.build with
    | none => simpa [saveTail, he, hb] using saveDownloadPhase_warned env art fs fspath w
    | some b =>
      cases hv : verifyDownload env art fs fspath with
      | ok v =>
        cases v with
        | true => simp [saveTail, he, hb, hv]
        | false => simpa [saveTail, he, hb, hv] using saveDownloadPhase_warned env art fs fspath w
      | exn e =>
        cases e with
        | artifactBroken =>
          simpa [saveTail, he, hb, hv] using saveDownloadPhase_warned env art fs fspath w
        | attributeError => simp [saveTail, he, hb, hv]
        | ioError => simp [saveTail, he, hb, hv]
        | assertionError => simp [saveTail, he, hb, hv]
        | urlError => simp [saveTail, he, hb, hv]
      | hang => simp [saveTail, he, hb, hv]

/-- The branching after the warn check reads the artifact only through its
url and build context, never through its filename: for two artifacts that
agree on those, saveTail is the same function. -/
theorem saveTail_filename_irrel (env : Env) (fs : Fs) (fspath u : String)
    (b : Option Build) (f1 f2 : String) (w : Bool) :
    saveTail env ⟨f1, u, b⟩ fs fspath w = saveTail env ⟨f2, u, b⟩ fs fspath w := rfl

/-- Claim C2: refuted on the code.  The read loop of _md5sum compares each
bytes chunk produced by f.read with the str sentinel of iter, a comparison
between values of different Python types that is always false, so the loop
never exits normally: for every file content and every amount of fuel the
run of _md5sum with its default chunksize is still unfinished. -/
theorem md5sum_never_terminates (content : List Nat) (fuel : Nat) :
    md5sumFuel content fuel = none :=
  md5Loop_none (2 ^ 20) content [] fuel

/-- Claim C1: refuted on the code.  For an artifact without a build context
the mandatory download completes — the plain fetch is performed and the
file is written at the destination — yet save never returns the downloaded
path: the unconditional post-download call to _verify_download enters
_md5sum's read loop on the freshly written (readable) file and hangs
forever, before the self.build dereference and before anything the except
ArtifactBroken clause could absorb.  Evaluation at a concrete input. -/
theorem save_noContext_download_then_hangs :
    (save envOk artN fsE "/tmp/out/report.xml").ret = Outcome.hang ∧
    fsLookup (save envOk artN fsE "/tmp/out/report.xml").fs "/tmp/out/report.xml"
      = some [7, 7] ∧
    (save envOk artN fsE "/tmp/out/report.xml").fetched
      = [FetchEv.plain "http://jenkins.example/job/build-A/42/artifact/report.xml"] :=
  ⟨by decide, by decide, by decide⟩

/-- Claim C4: refuted on the code.  With a build context and a pre-existing
readable file at fspath, save hangs inside _verify_download's _md5sum read
loop before the Fingerprint oracle is ever consulted, whatever answer the
oracle would have given: the short-circuit return of fspath is unreachable.
Up to the hang, no transport fetch happens and the filesystem is unchanged
— but save never returns destinationPath. -/
theorem save_with_context_hangs_before_oracle (env : Env) (art : Artifact)
    (fs : Fs) (fspath : String) (b : Build) (bytes0 : List Nat)
    (hb : art.build = some b)
    (hf : fsLookup fs fspath = some bytes0) :
    save env art fs fspath
      = ⟨Outcome.hang, fs, [], !(pyEndsWith fspath art.filename)⟩ := by
  have hv := verifyDownload_hang env art fs fspath bytes0 hf
  simp [save, saveTail, fsExists_of_lookup hf, hb, hv]

theorem save_with_context_hangs_before_oracle_witness :
    save envOk artB fsR "/tmp/out/report.xml"
      = ⟨Outcome.hang, fsR, [], false⟩ := by
  rw [save_with_context_hangs_before_oracle envOk artB fsR "/tmp/out/report.xml"
    ⟨"build-A", 42⟩ [1, 2] rfl rfl]
  decide

/-- Claim C5: without a build context, a pre-existing file at fspath is
never trusted: save performs exactly one plain (unauthenticated) transport
fetch and, when the fetch delivers bs, the file at fspath is overwritten
with bs.  (These events all happen before the later hang at the
post-download verification, and the recorded fetches and filesystem are
insensitive to how the run ends.) -/
theorem save_noContext_fetches (env : Env) (art : Artifact) (fs : Fs) (fspath : String)
    (bytes0 bs : List Nat)
    (hb : art.build = none)
    (hf : fsLookup fs fspath = some bytes0)
    (hfetch : env.fetch art.url = Except.ok bs) :
    (save env art fs fspath).fetched = [FetchEv.plain art.url] ∧
    fsLookup (save env art fs fspath).fs fspath = some bs := by
  have hvd : verifyDownload env art (fsWrite fs fspath bs) fspath = Outcome.hang :=
    verifyDownload_hang env art (fsWrite fs fspath bs) fspath bs
      (fsLookup_fsWrite_self fs fspath bs)
  simp [save, saveTail, fsExists_of_lookup hf, hb, saveDownloadPhase, doDownload, hfetch, hvd,
    fsLookup_fsWrite_self]

theorem save_noContext_fetches_witness :
    (save envOk artN fsR "/tmp/out/report.xml").fetched
      = [FetchEv.plain "http://jenkins.example/job/build-A/42/artifact/report.xml"] ∧
    fsLookup (save envOk artN fsR "/tmp/out/report.xml").fs "/tmp/out/report.xml"
      = some [7, 7] :=
  save_noContext_fetches envOk artN fsR "/tmp/out/report.xml" [1, 2] [7, 7]
    rfl rfl rfl

/-- Claim C6: refuted on the code.  The pre-existing-file verification can
never raise ArtifactBroken: _md5sum hangs on the readable file before the
Fingerprint oracle is constructed, so the except-ArtifactBroken
fall-through of lines 52-53 is dead code and no transport fetch ever
happens at these inputs — save hangs instead of downloading. -/
theorem save_indeterminate_never_raised (env : Env) (art : Artifact) (fs : Fs)
    (fspath : String) (b : Build) (bytes0 : List Nat)
    (hb : art.build = some b)
    (hf : fsLookup fs fspath = some bytes0) :
    verifyDownload env art fs fspath = Outcome.hang ∧
    (save env art fs fspath).ret = Outcome.hang ∧
    (save env art fs fspath).fetched = [] := by
  have hv := verifyDownload_hang env art fs fspath bytes0 hf
  refine ⟨hv, ?_, ?_⟩ <;> simp [save, saveTail, fsExists_of_lookup hf, hb, hv]

theorem save_indeterminate_never_raised_witness :
    verifyDownload envBroken artB fsR "/tmp/out/report.xml" = Outcome.hang ∧
    (save envBroken artB fsR "/tmp/out/report.xml").ret = Outcome.hang ∧
    (save envBroken artB fsR "/tmp/out/report.xml").fetched = [] :=
  save_indeterminate_never_raised envBroken artB fsR "/tmp/out/report.xml"
    ⟨"build-A", 42⟩ [1, 2] rfl rfl

/-- Claim C9: refuted on the code.  The oracle never gets to answer False
(or anything else) for a pre-existing file: _md5sum hangs first, so the
fall-through download and overwrite the claim describes never occur — the
run performs no fetch and leaves the filesystem unchanged, hanging at the
pre-existing-file verification. -/
theorem save_oracle_never_answers (env : Env) (art : Artifact) (fs : Fs)
    (fspath : String) (b : Build) (bytes0 : List Nat)
    (hb : art.build = some b)
    (hf : fsLookup fs fspath = some bytes0) :
    (save env art fs fspath).ret = Outcome.hang ∧
    (save env art fs fspath).fs = fs ∧
    (save env art fs fspath).fetched = [] := by
  have hv := verifyDownload_hang env art fs fspath bytes0 hf
  refine ⟨?_, ?_, ?_⟩ <;> simp [save, saveTail, fsExists_of_lookup hf, hb, hv]

theorem save_oracle_never_answers_witness :
    (save envFalse artB fsR "/tmp/out/report.xml").ret = Outcome.hang ∧
    (save envFalse artB fsR "/tmp/out/report.xml").fs = fsR ∧
    (save envFalse artB fsR "/tmp/out/report.xml").fetched = [] :=
  save_oracle_never_answers envFalse artB fsR "/tmp/out/report.xml"
    ⟨"build-A", 42⟩ [1, 2] rfl rfl

/-- Claim C3 (counterexample): a destination whose final path component
differs from the artifact name but still ends in it as a string suffix
produces no warning: the code tests str.endswith, not component equality. -/
theorem save_warn_component_cex :
    basename "/tmp/out/myreport.xml" ≠ "report.xml" ∧
    (save envOk artN fsE "/tmp/out/myreport.xml").warned = false := by
  exact ⟨by decide, by decide⟩

/-- Claim C3 (amended): the advisory warning is emitted exactly when the
destination path does not end with the artifact's filename as a string
suffix (Python str.endswith) — not when its final path component differs —
and the check never blocks anything: artifacts differing only in filename
produce the same returned value, final filesystem and transport fetches. -/
theorem save_warn_suffix_advisory (env : Env) (fs : Fs) (fspath u : String)
    (b : Option Build) (f1 f2 : String) :
    (save env ⟨f1, u, b⟩ fs fspath).warned = !(pyEndsWith fspath f1) ∧
    (save env ⟨f1, u, b⟩ fs fspath).ret = (save env ⟨f2, u, b⟩ fs fspath).ret ∧
    (save env ⟨f1, u, b⟩ fs fspath).fs = (save env ⟨f2, u, b⟩ fs fspath).fs ∧
    (save env ⟨f1, u, b⟩ fs fspath).fetched
        = (save env ⟨f2, u, b⟩ fs fspath).fetched := by
  obtain ⟨h1, h2, h3⟩ := saveTail_warn_irrel env ⟨f1, u, b⟩ fs fspath
    (!(pyEndsWith fspath f1)) (!(pyEndsWith fspath f2))
  refine ⟨saveTail_warned env ⟨f1, u, b⟩ fs fspath (!(pyEndsWith fspath f1)), ?_, ?_, ?_⟩
  · rw [save, save, h1, saveTail_filename_irrel env fs fspath u b f1 f2]
  · rw [save, save, h2, saveTail_filename_irrel env fs fspath u b f1 f2]
  · rw [save, save, h3, saveTail_filename_irrel env fs fspath u b f1 f2]

/-- Claim C7: refuted on the code.  save never reports success at all: on
every input it either hangs inside _md5sum during a verification attempt
(the pre-existing-file check, or the unconditional post-download check on
the file the download just wrote) or propagates an exception (transport
failure, unreadable-path IOError), so the successful returns the claim
quantifies over do not exist. -/
theorem save_never_reports_success (env : Env) (art : Artifact) (fs : Fs)
    (fspath : String) :
    ((save env art fs fspath).ret).isOk = false := by
  rw [save]
  cases he : fsExists fs fspath with
  | false =>
    rw [saveTail, if_neg (by simp [he])]
    exact saveDownloadPhase_never_ok env art fs fspath (!(pyEndsWith fspath art.filename))
  | true =>
    cases hb : art.build with
    | none =>
      simp only [saveTail, if_pos he, hb]
      exact saveDownloadPhase_never_ok env art fs fspath (!(pyEndsWith fspath art.filename))
    | some b =>
      rcases verifyDownload_cases env art fs fspath with hv | hv <;>
        simp [saveTail, if_pos he, hb, hv, Outcome.isOk]

/-- Claim C10: refuted on the code.  Even the run that comes closest to a
successful return — no pre-existing file, the authenticated download
succeeds and writes the destination — never returns the requested fspath:
save hangs at the post-download verification of the very file it just
wrote.  Evaluation at a concrete input of the authenticated-download
branch (the pre-existing-file branches hang even earlier, before any
fetch). -/
theorem save_download_branch_never_returns_path :
    (save envOk artB fsE "/tmp/out/report.xml").ret = Outcome.hang ∧
    (save envOk artB fsE "/tmp/out/report.xml").fetched
      = [FetchEv.auth "http://jenkins.example/job/build-A/42/artifact/report.xml"] ∧
    fsLookup (save envOk artB fsE "/tmp/out/report.xml").fs "/tmp/out/report.xml"
      = some [7, 7] :=
  ⟨by decide, by decide, by decide⟩

/-- Claim C8: savetodir checks its directory precondition first: when the
directory does not exist or is not a directory, the call fails with
AssertionError, the filesystem is untouched, and no transport access
happens (the fetch list is empty), before save is ever entered. -/
theorem savetodir_precondition (env : Env) (art : Artifact) (fs : Fs) (dirpath : String)
    (h : fsExists fs dirpath = false ∨ fsIsDir fs dirpath = false) :
    savetodir env art fs dirpath
      = ⟨Outcome.exn PyExn.assertionError, fs, [], false⟩ := by
  rcases h with h | h
  · simp [savetodir, h]
  · cases he : fsExists fs dirpath with
    | false => simp [savetodir, he]
    | true => simp [savetodir, he, h]

theorem savetodir_precondition_witness :
    fsExists fsE "/srv/artifacts" = false ∧
    savetodir envOk artB fsE "/srv/artifacts"
      = ⟨Outcome.exn PyExn.assertionError, fsE, [], false⟩ :=
  ⟨by decide, savetodir_precondition envOk artB fsE "/srv/artifacts" (Or.inl (by decide))⟩

end JenkinsApiArtifact
